import Mathlib

/-!
Shallow embedding of the chat-session / key-rotation subsystem of
`app.py` (medical chat assistant backend), together with proofs that
settle the specification claims about it.

Conventions of the embedding:
* Python strings are modelled as `String` / `List Char`; the Python
  string helpers (`lower`, `strip`, `split`, substring `in`) are
  reimplemented below with Python semantics restricted to the ASCII
  range.
* The session directory (`sessions/`) and the backup directory
  (`backup_sessions/`) are modelled as association lists from file
  name to file data; file data is either a parsed JSON value or
  unparsable bytes.
* Raised Python exceptions become `Except` errors; FastAPI
  `HTTPException(status, detail)` and `NameError` are the two error
  shapes the claims need.
* The wall-clock timestamp used in backup file names and the upstream
  model are passed in as explicit parameters.
-/

namespace App

/-! ### Python string primitives (ASCII range) -/

/-- Characters matched by Python `str.strip()` and by the regex class
backslash-s, restricted to ASCII. -/
def isPySpace (c : Char) : Bool :=
  c == ' ' || c == '\t' || c == '\n' || c == '\r' || c == '\x0b' || c == '\x0c'

/-- Python `str.lower()` (ASCII range). -/
def pyLower (l : List Char) : List Char := l.map Char.toLower

/-- Python `str.strip()`: drop leading and trailing whitespace. -/
def pyStrip (l : List Char) : List Char :=
  ((l.dropWhile isPySpace).reverse.dropWhile isPySpace).reverse

/-- Python substring test `needle in hay`. -/
def seqContains (needle : List Char) : List Char → Bool
  | [] => needle.isEmpty
  | c :: cs => needle.isPrefixOf (c :: cs) || seqContains needle cs

/-- Helper for Python `str.split()` with no separator: cut at every
whitespace character, keeping empty chunks for now. -/
def splitWsAux : List Char → List Char → List (List Char)
  | [], acc => [acc.reverse]
  | c :: cs, acc =>
      if isPySpace c then acc.reverse :: splitWsAux cs []
      else splitWsAux cs (c :: acc)

/-- Python `str.split()` with no separator: split on whitespace runs,
discarding empty chunks. -/
def pySplitWs (l : List Char) : List (List Char) :=
  (splitWsAux l []).filter (fun w => !w.isEmpty)

/-- Fuelled worker for Python `str.split(sep)` with a non-empty
separator; with fuel at least the length of the remaining input the
fuel never runs out. -/
def splitOnFuel (sep : List Char) : Nat → List Char → List Char → List (List Char)
  | 0, acc, rest => [acc.reverse ++ rest]
  | fuel + 1, acc, rest =>
      match rest with
      | [] => [acc.reverse]
      | c :: cs =>
          if sep.isPrefixOf (c :: cs) then
            acc.reverse :: splitOnFuel sep fuel [] (List.drop sep.length (c :: cs))
          else
            splitOnFuel sep fuel (c :: acc) cs

/-- Python `str.split(sep)` for a non-empty separator. -/
def pySplitOn (sep l : List Char) : List (List Char) :=
  splitOnFuel sep l.length [] l

/-! ### JSON values and the turn data model -/

/-- JSON values as produced by Python `json.load` (numbers restricted
to integers; the session subsystem stores only arrays, objects and
strings). -/
inductive Json where
  | null
  | bool (b : Bool)
  | num (n : Int)
  | str (s : String)
  | arr (l : List Json)
  | obj (kvs : List (String × Json))

/-- Python truthiness of a JSON value, as used by `if not session_data`. -/
def pyFalsy : Json → Bool
  | .null => true
  | .bool b => !b
  | .num n => n == 0
  | .str s => s.isEmpty
  | .arr l => l.isEmpty
  | .obj kvs => kvs.isEmpty

/-- One conversation turn: the dict `{"role": ..., "text": ...}`. -/
structure Turn where
  role : String
  text : String
deriving DecidableEq

/-- JSON encoding of one turn, as written by `json.dump`. -/
def turnToJson (t : Turn) : Json := .obj [("role", .str t.role), ("text", .str t.text)]

/-- JSON encoding of a whole turn sequence. -/
def sessionToJson (ts : List Turn) : Json := .arr (ts.map turnToJson)

/-- Decoding of one turn object back from JSON. -/
def jsonToTurn : Json → Option Turn
  | .obj [("role", .str r), ("text", .str t)] => some ⟨r, t⟩
  | _ => none

/-- Decoding of a list of JSON values as turns. -/
def decodeTurns : List Json → Option (List Turn)
  | [] => some []
  | j :: js =>
      match jsonToTurn j, decodeTurns js with
      | some t, some ts => some (t :: ts)
      | _, _ => none

/-- Decoding of a stored JSON value back into a turn sequence. -/
def jsonToSession : Json → Option (List Turn)
  | .arr l => decodeTurns l
  | _ => none

/-! ### Filesystem model and the session store -/

/-- Contents of one file on disk: either bytes that parse as JSON, or
unparsable bytes (the `json.JSONDecodeError` case). -/
inductive FileData where
  | json (j : Json)
  | invalid

/-- The two directories the session store touches, each an association
list from file name to file data. -/
structure FS where
  sessions : List (String × FileData)
  backups : List (String × FileData)

/-- Association-list lookup. -/
def lookupA : List (String × FileData) → String → Option FileData
  | [], _ => none
  | (k, v) :: m, key => if k = key then some v else lookupA m key

/-- Association-list removal of every binding of a key. -/
def eraseA : List (String × FileData) → String → List (String × FileData)
  | [], _ => []
  | (k, v) :: m, key => if k = key then eraseA m key else (k, v) :: eraseA m key

/-- Association-list overwrite. -/
def insertA (m : List (String × FileData)) (k : String) (v : FileData) :
    List (String × FileData) :=
  (k, v) :: eraseA m k

/-- File name of a session inside `sessions/`. -/
def sessionFileName (sessionId : String) : String := sessionId ++ ".json"

/-- File name of a quarantined session inside `backup_sessions/`,
embedding the session id and the current timestamp. -/
def backupFileName (sessionId ts : String) : String :=
  sessionId ++ "_" ++ ts ++ ".json"

/-- `load_session` from `app.py`: read the session file if it exists;
on a parse failure move the file to the backup directory and return an
empty list; on a missing file return an empty list.  `ts` is the
timestamp string `time.strftime` produces at the move.  Returns the
loaded JSON value together with the filesystem after any move. -/
def load_session (fs : FS) (sessionId ts : String) : Json × FS :=
  match lookupA fs.sessions (sessionFileName sessionId) with
  | some (.json j) => (j, fs)
  | some .invalid =>
      (Json.arr [],
        ⟨eraseA fs.sessions (sessionFileName sessionId),
          insertA fs.backups (backupFileName sessionId ts) .invalid⟩)
  | none => (Json.arr [], fs)

/-- `save_session` from `app.py`: overwrite the session file with the
JSON dump of the turn sequence. -/
def save_session (fs : FS) (sessionId : String) (data : List Turn) : FS :=
  ⟨insertA fs.sessions (sessionFileName sessionId) (.json (sessionToJson data)),
    fs.backups⟩

/-! ### Errors, credential rotator -/

/-- Raised Python exceptions the handlers distinguish: FastAPI
`HTTPException(status_code, detail)` and `NameError`. -/
inductive PyErr where
  | httpError (status : Nat) (detail : String)
  | nameError (n : String)
deriving DecidableEq

/-- Python `str(e)` for the modelled exceptions (Starlette renders an
`HTTPException` as `"{status_code}: {detail}"`). -/
def pyErrStr : PyErr → String
  | .httpError s d => Nat.repr s ++ ": " ++ d
  | .nameError n => "name \x27" ++ n ++ "\x27 is not defined"

/-- `len(API_KEYS)`: the module builds the key list from exactly three
environment variables. -/
def API_KEYS_length : Nat := 3

/-- A configured generative-model client; `initialize_gemini` binds the
external client to the credential at one index. -/
structure GeminiClient where
  keyIndex : Nat
deriving DecidableEq

/-- `initialize_gemini` from `app.py`: configure the external library
with `API_KEYS[idx]` and return the model client (the external
configure call is modelled as succeeding). -/
def init_gemini (idx : Nat) : GeminiClient := ⟨idx⟩

/-- `rotate_key` from `app.py`: advance `current_key_index` if it is
below the last index and return a freshly configured client, else
raise `HTTPException(500, "All API keys have been used. ...")`.
Returns the outcome and the key index afterwards. -/
def rotate_key (idx : Nat) : Except PyErr GeminiClient × Nat :=
  if idx < API_KEYS_length - 1 then
    (.ok (init_gemini (idx + 1)), idx + 1)
  else
    (.error (.httpError 500 "All API keys have been used. Please add more keys."), idx)

/-! ### Retry orchestrator -/

/-- Outcomes of one upstream `generate_content` call: success is
carried by `Except.ok`; failures are the distinguished quota signal
(`genai.QuotaExceededError`) or any other exception. -/
inductive UpstreamErr where
  | quotaExceeded
  | other (msg : String)
deriving DecidableEq

/-- Result of `retry_request`: a returned value, a re-raised
exception, or the implicit `None` Python returns when the loop body
never runs (`retries = 0`). -/
inductive RetryResult (α : Type) where
  | ok (a : α)
  | err (e : UpstreamErr)
  | finished
deriving DecidableEq

/-- Loop body of `retry_request`.  `f n` is the outcome of the n-th
call of the wrapped operation, `last = retries - 1`, and the remaining
arguments are the loop fuel (number of iterations left), the current
attempt index and the current delay.  Also returns the list of
back-off delays slept, in order. -/
def retryLoop (f : Nat → Except UpstreamErr α) (last : Nat) :
    Nat → Nat → Nat → RetryResult α × List Nat
  | 0, _, _ => (.finished, [])
  | n + 1, attempt, delay =>
      match f attempt with
      | .ok a => (.ok a, [])
      | .error e =>
          if attempt = last then (.err e, [])
          else
            let r := retryLoop f last n (attempt + 1) (delay * 2)
            (r.1, delay :: r.2)

/-- `retry_request` from `app.py` (`retries` defaults to 3, `delay` to
5): call the operation up to `retries` times; any exception on a
non-final attempt causes a sleep of the current delay and a doubled
delay for the next attempt; the final attempt re-raises. -/
def retry_request (f : Nat → Except UpstreamErr α) (retries delay : Nat) :
    RetryResult α × List Nat :=
  retryLoop f (retries - 1) retries 0 delay

/-! ### Greeting classifier -/

/-- The fixed greeting-phrase set of `is_greeting`. -/
def greetings : List String :=
  ["hello", "hi", "hey", "hola", "namaste", "good morning", "good evening"]

/-- `is_greeting` from `app.py`: lowercase and strip the prompt, then
require some greeting phrase as a substring and a whitespace word
count of at most 2. -/
def is_greeting (prompt : String) : Bool :=
  let prompt_lower := pyStrip (pyLower prompt.data)
  greetings.any (fun g => seqContains g.data prompt_lower)
    && decide ((pySplitWs prompt_lower).length ≤ 2)

/-- Modelled from the spec wording of greeting detection, to be
compared with `is_greeting`: after trimming and lowercasing, the
prompt contains at least one member of the fixed greeting-phrase set
as a substring and its whitespace-delimited word count is at most 2. -/
def greetingSpec (prompt : String) : Prop :=
  (∃ g ∈ greetings, g.data <:+: pyStrip (pyLower prompt.data)) ∧
  (pySplitWs (pyStrip (pyLower prompt.data))).length ≤ 2

/-! ### Response formatter

The URL pattern of `format_response` is
a bracket, optional; then `https?://` followed by one or more
characters outside whitespace and `<`, `>`, `]`, `)`; then an optional
closing bracket; then an optional parenthesized duplicate URL.
`re.sub` replaces each leftmost non-overlapping match with an anchor
tag built from capture group 1 (the bare URL). -/

/-- Characters allowed in the URL body class of the pattern. -/
def urlBodyChar (c : Char) : Bool :=
  !(isPySpace c || c == '<' || c == '>' || c == ']' || c == ')')

/-- Match `https?://` followed by a non-empty greedy run of URL body
characters at the head of the input; return capture group 1 (scheme
plus body) and the rest of the input. -/
def matchHttpCore : List Char → Option (List Char × List Char)
  | 'h' :: 't' :: 't' :: 'p' :: rest =>
      match rest with
      | 's' :: ':' :: '/' :: '/' :: r2 =>
          let b := r2.takeWhile urlBodyChar
          if b.isEmpty then none
          else some ('h' :: 't' :: 't' :: 'p' :: 's' :: ':' :: '/' :: '/' :: b,
                     r2.drop b.length)
      | ':' :: '/' :: '/' :: r2 =>
          let b := r2.takeWhile urlBodyChar
          if b.isEmpty then none
          else some ('h' :: 't' :: 't' :: 'p' :: ':' :: '/' :: '/' :: b,
                     r2.drop b.length)
      | _ => none
  | _ => none

/-- Match the optional parenthesized duplicate
(whitespace run, open paren, a second URL, close paren); return the
rest of the input after it. -/
def matchParenDup (l : List Char) : Option (List Char) :=
  match l.dropWhile isPySpace with
  | '(' :: r =>
      match matchHttpCore r with
      | some (_, rest) =>
          match rest with
          | ')' :: r2 => some r2
          | _ => none
      | none => none
  | _ => none

/-- Match the URL pattern minus the leading optional bracket: the core
URL, then an optional `]` (the body class excludes `]`, so the greedy
body always stops before one), then the optional duplicate. -/
def matchUrlCore (l : List Char) : Option (List Char × List Char) :=
  match matchHttpCore l with
  | some (url, rest) =>
      let rest2 := if rest.head? = some ']' then rest.tail else rest
      let rest3 := match matchParenDup rest2 with
        | some r => r
        | none => rest2
      some (url, rest3)
  | none => none

/-- Match the full URL pattern at the head of the input.  A leading
`[` is consumed greedily; backtracking to not consume it cannot
succeed because the scheme would then have to start at the bracket. -/
def matchUrlAt (l : List Char) : Option (List Char × List Char) :=
  match l with
  | '[' :: r => matchUrlCore r
  | _ => matchUrlCore l

/-- The replacement `re.sub` applies to each match:
an anchor tag whose href and text are capture group 1. -/
def anchorTag (url : List Char) : List Char :=
  "<a href=\"".data ++ url ++ "\" target=\"_blank\">".data ++ url ++ "</a>".data

/-- Fuelled scan of `re.sub` over the input: try the pattern at each
position, replacing matches and moving past them.  Fuel at least the
input length suffices because every step consumes at least one
character. -/
def urlSubFuel : Nat → List Char → List Char
  | 0, l => l
  | _ + 1, [] => []
  | fuel + 1, c :: cs =>
      match matchUrlAt (c :: cs) with
      | some (url, rest) => anchorTag url ++ urlSubFuel fuel rest
      | none => c :: urlSubFuel fuel cs

/-- `re.sub(url_pattern, replace_url, para)` from `format_response`. -/
def urlSub (l : List Char) : List Char := urlSubFuel l.length l

/-- Per-line transformation inside a bullet paragraph of
`format_response`: strip the line, turn `* ` / `- ` leads into bullet
glyphs, put `**...**` lines on their own line, pass others through. -/
def formatLine (line0 : List Char) : List Char :=
  let line := pyStrip line0
  if ['*', ' '].isPrefixOf line || ['-', ' '].isPrefixOf line then
    ['•', ' '] ++ line.drop 2
  else if ['*', '*'].isPrefixOf line && List.isSuffixOf ['*', '*'] line then
    ['\n', '*', '*'] ++ ((line.take (line.length - 2)).drop 2) ++ ['*', '*', '\n']
  else line

/-- Per-paragraph body of the loop in `format_response`: strip, skip
empty paragraphs, rewrite bullet paragraphs line by line, substitute
URLs. -/
def processPara (para0 : List Char) : Option (List Char) :=
  let para := pyStrip para0
  if para.isEmpty then none
  else
    let para1 :=
      if ['*', ' '].isPrefixOf para || ['-', ' '].isPrefixOf para
          || ['*', '*'].isPrefixOf para then
        List.intercalate ['\n'] ((pySplitOn ['\n'] para).map formatLine)
      else para
    some (urlSub para1)

/-- `format_response` from `app.py` (the `prompt` parameter is unused
by its body): split into paragraphs on blank lines when present else
on newlines, process each paragraph, and rejoin with blank lines. -/
def format_response (text _prompt : String) : String :=
  let tl := text.data
  let paragraphs :=
    if seqContains ['\n', '\n'] tl then pySplitOn ['\n', '\n'] tl
    else pySplitOn ['\n'] tl
  ⟨List.intercalate ['\n', '\n'] (paragraphs.filterMap processPara)⟩

/-! ### Session retrieval endpoint -/

/-- Body of the `try` block of `get_session`: load the session and
raise `HTTPException(404, "Session not found")` when the loaded value
is falsy (Python `if not session_data`), else return the session id
with the messages. -/
def get_sessionBody (fs : FS) (sessionId ts : String) :
    Except PyErr (String × Json) × FS :=
  let r := load_session fs sessionId ts
  if pyFalsy r.1 then (.error (.httpError 404 "Session not found"), r.2)
  else (.ok (sessionId, r.1), r.2)

/-- `get_session` from `app.py`: the bare `except Exception` around the
body catches every exception — the 404 `HTTPException` included — and
re-raises it as `HTTPException(500, "Error retrieving session: ...")`. -/
def get_session (fs : FS) (sessionId ts : String) :
    Except PyErr (String × Json) × FS :=
  match get_sessionBody fs sessionId ts with
  | (.ok v, fs2) => (.ok v, fs2)
  | (.error e, fs2) =>
      (.error (.httpError 500 ("Error retrieving session: " ++ pyErrStr e)), fs2)

/-! ### Chat endpoint -/

/-- The response model of the chat endpoint. -/
structure ChatResponse where
  response : String
deriving DecidableEq

/-- Body of the `try` block of `chat_with_medical_assistant`, up to the
point it can reach.  After validating `session_id` and loading the
session, line 204 evaluates `BOS not in session_data`; the name `BOS`
is not bound anywhere in the module, so the comparison raises
`NameError` before the welcome-message test, the greeting branch or
any upstream call can run. -/
def chatBody (fs : FS) (sessionId _prompt ts : String) :
    Except PyErr ChatResponse × FS :=
  if sessionId = "" then
    (.error (.httpError 422 "session_id is required"), fs)
  else
    let r := load_session fs sessionId ts
    (.error (.nameError "BOS"), r.2)

/-- The outermost `except Exception` of the chat handler: every
exception from the body — `HTTPException` values included — is
replaced by `HTTPException(500, "Unexpected error: ...")`. -/
def outerCatch (r : Except PyErr ChatResponse) : Except PyErr ChatResponse :=
  match r with
  | .ok v => .ok v
  | .error e => .error (.httpError 500 ("Unexpected error: " ++ pyErrStr e))

/-- `chat_with_medical_assistant` from `app.py`: the body wrapped in
the outermost catch-all handler. -/
def chat_with_medical_assistant (fs : FS) (sessionId prompt ts : String) :
    Except PyErr ChatResponse × FS :=
  let r := chatBody fs sessionId prompt ts
  (outerCatch r.1, r.2)

/-! ### Concrete fixtures for witnesses and counterexamples -/

/-- An empty filesystem: no session files, no backups. -/
def fsEmpty : FS := ⟨[], []⟩

/-- A filesystem whose only session file is unparsable. -/
def fsCorrupt : FS := ⟨[("abc.json", FileData.invalid)], []⟩

/-- A filesystem whose only session file stores a valid empty JSON
array. -/
def fsEmptyArr : FS := ⟨[("abc.json", FileData.json (Json.arr []))], []⟩

/-- A filesystem whose only session file stores one user turn. -/
def fsOneTurn : FS :=
  ⟨[("abc.json", FileData.json (sessionToJson [⟨"user", "hi"⟩]))], []⟩

/-- Attempt outcomes used against the retry orchestrator: the first
call fails with quota exhaustion, every later call succeeds. -/
def quotaThenOk : Nat → Except UpstreamErr String
  | 0 => .error .quotaExceeded
  | _ + 1 => .ok "ok"

/-! ### Helper lemmas about the string primitives -/

/-- The Python substring test agrees with list infix. -/
theorem seqContains_iff (n l : List Char) : seqContains n l = true ↔ n <:+: l := by
  induction l with
  | nil => simp [seqContains, List.isEmpty_iff, List.infix_nil]
  | cons c cs ih =>
      simp [seqContains, Bool.or_eq_true, List.isPrefixOf_iff_prefix, ih,
        List.infix_cons_iff]

/-- Negative form of `seqContains_iff`. -/
theorem seqContains_eq_false_iff (n l : List Char) :
    seqContains n l = false ↔ ¬ n <:+: l := by
  rw [← seqContains_iff]
  cases seqContains n l <;> simp

/-- Splitting on a separator whose first character does not occur in
the input yields the single chunk `acc.reverse ++ input`. -/
theorem splitOnFuel_no_sep (h : Char) (sep : List Char) (l : List Char) :
    ∀ (fuel : Nat) (acc : List Char), l.length ≤ fuel → h ∉ l →
      splitOnFuel (h :: sep) fuel acc l = [acc.reverse ++ l] := by
  induction l with
  | nil => intro fuel acc _ _; cases fuel <;> simp [splitOnFuel]
  | cons c cs ih =>
      intro fuel acc hf hn
      cases fuel with
      | zero => simp at hf
      | succ n =>
          have hch : (h == c) = false := by
            have : h ≠ c := fun e => hn (by simp [e])
            simpa using this
          have hpre : (h :: sep).isPrefixOf (c :: cs) = false := by
            rw [List.isPrefixOf_cons₂, hch, Bool.false_and]
          rw [splitOnFuel, hpre]
          simp only [Bool.false_eq_true, if_false]
          rw [ih n (c :: acc) (Nat.le_of_succ_le_succ hf)
            (fun hm => hn (List.mem_cons_of_mem c hm))]
          simp [List.append_assoc]

/-- `pyStrip` produces an infix of its input. -/
theorem pyStrip_contained (l : List Char) : pyStrip l <:+: l := by
  unfold pyStrip
  have h1 : l.dropWhile isPySpace <:+ l := List.dropWhile_suffix _
  have h2 : ((l.dropWhile isPySpace).reverse.dropWhile isPySpace).reverse
      <+: l.dropWhile isPySpace := by
    rw [← List.reverse_suffix, List.reverse_reverse]
    exact List.dropWhile_suffix _
  exact h2.isInfix.trans h1.isInfix

/-! ### Helper lemmas about the URL matcher -/

/-- The scheme matcher fails unless the input starts with `http`. -/
theorem matchHttpCore_none (l : List Char)
    (h : ¬ ['h', 't', 't', 'p'] <+: l) : matchHttpCore l = none := by
  unfold matchHttpCore
  split
  · exact absurd ⟨_, rfl⟩ h
  · rfl

/-- The bracketless URL matcher fails when the scheme matcher does. -/
theorem matchUrlCore_none (l : List Char) (h : matchHttpCore l = none) :
    matchUrlCore l = none := by
  unfold matchUrlCore
  rw [h]

/-- The full URL matcher fails on input that does not contain `http`. -/
theorem matchUrlAt_none (l : List Char)
    (h : ¬ ['h', 't', 't', 'p'] <:+: l) : matchUrlAt l = none := by
  unfold matchUrlAt
  split
  · apply matchUrlCore_none
    apply matchHttpCore_none
    intro hp
    exact h (List.infix_cons hp.isInfix)
  · apply matchUrlCore_none
    apply matchHttpCore_none
    intro hp
    exact h hp.isInfix

/-- `re.sub` of the URL pattern is the identity on input that does not
contain `http`. -/
theorem urlSubFuel_id (fuel : Nat) :
    ∀ l : List Char, ¬ ['h', 't', 't', 'p'] <:+: l → urlSubFuel fuel l = l := by
  induction fuel with
  | zero => intro l _; rfl
  | succ n ih =>
      intro l h
      cases l with
      | nil => rfl
      | cons c cs =>
          rw [urlSubFuel, matchUrlAt_none _ h]
          exact congrArg (c :: ·) (ih cs (fun hin => h (List.infix_cons hin)))

/-- Boolean form of `urlSubFuel_id` at full fuel. -/
theorem urlSub_id (l : List Char)
    (h : seqContains ['h', 't', 't', 'p'] l = false) : urlSub l = l :=
  urlSubFuel_id _ l ((seqContains_eq_false_iff _ _).mp h)

/-! ### Helper lemmas about the filesystem model -/

/-- Looking up a key right after overwriting it. -/
theorem lookupA_insertA_self (m : List (String × FileData)) (k : String)
    (v : FileData) : lookupA (insertA m k v) k = some v := by
  simp [insertA, lookupA]

/-- Looking up a key right after erasing it. -/
theorem lookupA_eraseA_self (m : List (String × FileData)) (k : String) :
    lookupA (eraseA m k) k = none := by
  induction m with
  | nil => rfl
  | cons p m ih =>
      obtain ⟨k1, v1⟩ := p
      by_cases hk : k1 = k
      · simp [eraseA, hk, ih]
      · simp [eraseA, hk, lookupA, ih]

/-- Decoding inverts encoding on turn lists. -/
theorem decodeTurns_map (ts : List Turn) :
    decodeTurns (ts.map turnToJson) = some ts := by
  induction ts with
  | nil => rfl
  | cons t ts ih => simp [decodeTurns, jsonToTurn, turnToJson, ih]

/-! ### Helper lemma about the retry loop -/

/-- Shifting the attempt index by one is the same as shifting the
wrapped operation and the final index by one. -/
theorem retryLoop_shift (f : Nat → Except UpstreamErr α) (last : Nat) :
    ∀ (n attempt delay : Nat),
      retryLoop f (last + 1) n (attempt + 1) delay
        = retryLoop (fun i => f (i + 1)) last n attempt delay := by
  intro n
  induction n with
  | zero => intro attempt delay; rfl
  | succ m ih =>
      intro attempt delay
      rw [retryLoop, retryLoop]
      cases hf : f (attempt + 1) with
      | ok a => simp [hf]
      | error e =>
          simp only [hf]
          by_cases ha : attempt = last
          · simp [ha]
          · have hne : ¬ (attempt + 1 = last + 1) := fun hh => ha (Nat.succ_injective hh)
            simp [ha, hne, ih]

/-! ### Claim theorems -/

/-- Claim C1: for every chat request that reaches the welcome-message
check (the session id is non-empty, so the session has been loaded),
the handler evaluates `BOS not in session_data` with `BOS` undefined,
so the body raises `NameError`, the outer handler catches it, and the
request ends in a 500 Unexpected-error response; the chat endpoint can
never return a successful `ChatResponse`. -/
theorem claim_C1 :
    (∀ (fs : FS) (sid prompt ts : String), sid ≠ "" →
      (chatBody fs sid prompt ts).1 = .error (.nameError "BOS") ∧
      (chat_with_medical_assistant fs sid prompt ts).1
        = .error (.httpError 500
            "Unexpected error: name \x27BOS\x27 is not defined")) ∧
    (∀ (fs : FS) (sid prompt ts : String) (r : ChatResponse),
      (chat_with_medical_assistant fs sid prompt ts).1 ≠ .ok r) := by
  constructor
  · intro fs sid prompt ts hs
    refine ⟨by simp [chatBody, hs], ?_⟩
    simp [chat_with_medical_assistant, chatBody, hs, outerCatch, pyErrStr]
  · intro fs sid prompt ts r
    by_cases hs : sid = "" <;>
      simp [chat_with_medical_assistant, chatBody, hs, outerCatch]

/-- Witness for claim C1 at a concrete request. -/
theorem claim_C1_witness :
    ("abc" : String) ≠ "" ∧
    (chat_with_medical_assistant fsEmpty "abc" "question" "t").1
      = .error (.httpError 500
          "Unexpected error: name \x27BOS\x27 is not defined") :=
  ⟨by decide, (claim_C1.1 fsEmpty "abc" "question" "t" (by decide)).2⟩

/-- Claim C2 (evaluation of the code at the failing input): on an
empty session store, the chat request with prompt "hi" does not return
the canned greeting and persists nothing — the handler 500s on the
`BOS` NameError even though "hi" is classified as a greeting, so the
greeting branch that the claim describes is unreachable. -/
theorem claim_C2_code_behavior :
    (chat_with_medical_assistant fsEmpty "abc" "hi" "t").1
      = .error (.httpError 500
          "Unexpected error: name \x27BOS\x27 is not defined") ∧
    (chat_with_medical_assistant fsEmpty "abc" "hi" "t").2.sessions = [] ∧
    is_greeting "hi" = true := by
  refine ⟨rfl, rfl, by decide⟩

/-- Claim C4: `rotate_key` increments the index and returns a freshly
configured client while below the last index, fails with the
keys-exhausted error leaving the index unchanged at the last index;
from index 0 with 3 keys the successive calls reach 1, then 2, then
fail; the index never decreases. -/
theorem claim_C4 :
    (∀ idx, idx < API_KEYS_length - 1 →
      rotate_key idx = (.ok (init_gemini (idx + 1)), idx + 1)) ∧
    (∀ idx, idx = API_KEYS_length - 1 →
      rotate_key idx = (.error (.httpError 500
        "All API keys have been used. Please add more keys."), idx)) ∧
    rotate_key 0 = (.ok (init_gemini 1), 1) ∧
    rotate_key 1 = (.ok (init_gemini 2), 2) ∧
    rotate_key 2 = (.error (.httpError 500
      "All API keys have been used. Please add more keys."), 2) ∧
    (∀ idx, idx ≤ (rotate_key idx).2) := by
  refine ⟨?_, ?_, rfl, rfl, rfl, ?_⟩
  · intro idx h; simp [rotate_key, h]
  · intro idx h
    subst h
    simp [rotate_key, API_KEYS_length]
  · intro idx
    by_cases h : idx < API_KEYS_length - 1 <;> simp [rotate_key, h]

/-- Witness for claim C4 at index 0. -/
theorem claim_C4_witness :
    0 < API_KEYS_length - 1 ∧ rotate_key 0 = (.ok (init_gemini 1), 1) :=
  ⟨by decide, claim_C4.1 0 (by decide)⟩

/-- Claim C5: loading a session whose backing file exists but is
unparsable returns the empty sequence, removes the file from the
session directory, and places it in the backup directory under a name
embedding the session id and the timestamp; no error is raised. -/
theorem claim_C5 (fs : FS) (sessionId ts : String)
    (h : lookupA fs.sessions (sessionFileName sessionId) = some .invalid) :
    (load_session fs sessionId ts).1 = Json.arr [] ∧
    lookupA (load_session fs sessionId ts).2.sessions
      (sessionFileName sessionId) = none ∧
    lookupA (load_session fs sessionId ts).2.backups
      (backupFileName sessionId ts) = some .invalid := by
  simp [load_session, h, lookupA_eraseA_self, lookupA_insertA_self]

/-- Witness for claim C5 on a concrete corrupted store. -/
theorem claim_C5_witness :
    lookupA fsCorrupt.sessions (sessionFileName "abc") = some FileData.invalid ∧
    (load_session fsCorrupt "abc" "20250101-000000").1 = Json.arr [] ∧
    lookupA (load_session fsCorrupt "abc" "20250101-000000").2.sessions
      (sessionFileName "abc") = none ∧
    lookupA (load_session fsCorrupt "abc" "20250101-000000").2.backups
      (backupFileName "abc" "20250101-000000") = some FileData.invalid := by
  have h : lookupA fsCorrupt.sessions (sessionFileName "abc")
      = some FileData.invalid := rfl
  obtain ⟨h1, h2, h3⟩ := claim_C5 fsCorrupt "abc" "20250101-000000" h
  exact ⟨h, h1, h2, h3⟩

/-- Claim C6: saving a turn sequence and loading it back yields
exactly that sequence — the loaded JSON value is the encoding of the
saved turns, that encoding decodes to the saved turns, and the load
leaves the store untouched. -/
theorem claim_C6 (fs : FS) (sessionId : String) (T : List Turn) (ts : String) :
    (load_session (save_session fs sessionId T) sessionId ts).1
      = sessionToJson T ∧
    jsonToSession (sessionToJson T) = some T ∧
    (load_session (save_session fs sessionId T) sessionId ts).2
      = save_session fs sessionId T := by
  have hl : lookupA (save_session fs sessionId T).sessions
      (sessionFileName sessionId) = some (.json (sessionToJson T)) :=
    lookupA_insertA_self ..
  exact ⟨by simp [load_session, hl], by simp [jsonToSession, sessionToJson, decodeTurns_map],
    by simp [load_session, hl]⟩

/-- Claim C7: a prompt is classified as a greeting iff, after
lowercasing and trimming, it contains a greeting phrase as a substring
and has word count at most 2; "hey" is a greeting and
"hey how are you" is not. -/
theorem claim_C7 :
    (∀ prompt : String, is_greeting prompt = true ↔ greetingSpec prompt) ∧
    is_greeting "hey" = true ∧
    is_greeting "hey how are you" = false := by
  refine ⟨?_, by decide, by decide⟩
  intro prompt
  simp [is_greeting, greetingSpec, List.any_eq_true, seqContains_iff]

/-- Claim C3 counterexample: the retry orchestrator does NOT propagate
a quota-exhaustion failure of the first attempt — it sleeps the
initial delay and re-attempts, returning the second attempt's success,
contradicting the claim that quota failures are passed straight to the
caller instead of being retried with backoff. -/
theorem claim_C3_counterexample :
    quotaThenOk 0 = Except.error UpstreamErr.quotaExceeded ∧
    retry_request quotaThenOk 3 5 = (RetryResult.ok "ok", [5]) ∧
    retry_request quotaThenOk 3 5
      ≠ (RetryResult.err UpstreamErr.quotaExceeded, []) := by
  refine ⟨rfl, rfl, by decide⟩

/-- Claim C3 as amended: `retry_request` treats every failure kind
uniformly — quota exhaustion included.  A successful first attempt
returns immediately with no sleeps; when the retry count is 1 the
first failure propagates at once, whatever its kind; otherwise any
first failure — quota included — is followed by a sleep of the current
delay and the loop continues on the remaining attempts with the delay
doubled, so the error propagates only after the final attempt. -/
theorem claim_C3_amended (f : Nat → Except UpstreamErr α) (r d : Nat)
    (hr : 1 ≤ r) :
    (∀ a, f 0 = .ok a → retry_request f r d = (.ok a, [])) ∧
    (∀ e, f 0 = .error e → r = 1 → retry_request f r d = (.err e, [])) ∧
    (∀ e, f 0 = .error e → 2 ≤ r →
      retry_request f r d
        = ((retry_request (fun n => f (n + 1)) (r - 1) (d * 2)).1,
            d :: (retry_request (fun n => f (n + 1)) (r - 1) (d * 2)).2)) := by
  refine ⟨?_, ?_, ?_⟩
  · intro a ha
    obtain ⟨m, rfl⟩ : ∃ m, r = m + 1 := ⟨r - 1, by omega⟩
    simp [retry_request, retryLoop, ha]
  · intro e he hr1
    subst hr1
    simp [retry_request, retryLoop, he]
  · intro e he hr2
    obtain ⟨m, rfl⟩ : ∃ m, r = m + 2 := ⟨r - 2, by omega⟩
    have hlast : m + 2 - 1 = m + 1 := by omega
    have hm1 : m + 2 - 1 - 1 = m := by omega
    simp only [retry_request, hlast, hm1]
    rw [retryLoop, he]
    have h0 : ¬ ((0 : Nat) = m + 1) := by omega
    simp only [h0, if_false]
    rw [show retryLoop f (m + 1) (m + 1) 1 (d * 2)
        = retryLoop (fun i => f (i + 1)) m (m + 1) 0 (d * 2) from
      retryLoop_shift f m (m + 1) 0 (d * 2)]
    simp

/-- Witness for the amended claim C3: a concrete quota failure on the
first of three attempts sleeps the initial delay of 5 and continues on
the remaining two attempts with the delay doubled. -/
theorem claim_C3_amended_witness :
    quotaThenOk 0 = Except.error UpstreamErr.quotaExceeded ∧ 2 ≤ 3 ∧
    retry_request quotaThenOk 3 5
      = ((retry_request (fun n => quotaThenOk (n + 1)) 2 10).1,
          5 :: (retry_request (fun n => quotaThenOk (n + 1)) 2 10).2) :=
  ⟨rfl, by decide,
    (claim_C3_amended quotaThenOk 3 5 (by decide)).2.2
      UpstreamErr.quotaExceeded rfl (by decide)⟩

/-- Claim C8 counterexample: the input joins its single-newline
paragraphs with blank lines, so on "a\nb" — which contains no bullet
markers, no bold markers and no URLs — `format_response` returns
"a\n\nb", which differs from the trimmed input "a\nb". -/
theorem claim_C8_counterexample :
    seqContains ['h', 't', 't', 'p'] "a\nb".data = false ∧
    seqContains ['*', '*'] "a\nb".data = false ∧
    seqContains ['*', ' '] "a\nb".data = false ∧
    seqContains ['-', ' '] "a\nb".data = false ∧
    format_response "a\nb" "p" = "a\n\nb" ∧
    String.mk (pyStrip "a\nb".data) = "a\nb" ∧
    ("a\n\nb" : String) ≠ "a\nb" := by
  refine ⟨rfl, rfl, rfl, rfl, rfl, rfl, by decide⟩

/-- Claim C8 as amended: for input without newline characters, without
`http`, and whose trimmed form does not start with a bullet marker
(`* `, `- `) or bold marker (`**`), `format_response` is a no-op up to
trimming: the output equals the trimmed input. -/
theorem claim_C8_amended (text prompt : String)
    (hnl : '\n' ∉ text.data)
    (hhttp : seqContains ['h', 't', 't', 'p'] text.data = false)
    (hb1 : ['*', ' '].isPrefixOf (pyStrip text.data) = false)
    (hb2 : ['-', ' '].isPrefixOf (pyStrip text.data) = false)
    (hb3 : ['*', '*'].isPrefixOf (pyStrip text.data) = false) :
    format_response text prompt = String.mk (pyStrip text.data) := by
  have hnn : seqContains ['\n', '\n'] text.data = false := by
    rw [seqContains_eq_false_iff]
    exact fun hin => hnl (hin.subset (by simp))
  have hsplit : pySplitOn ['\n'] text.data = [text.data] := by
    have := splitOnFuel_no_sep '\n' [] text.data text.data.length [] le_rfl hnl
    simpa [pySplitOn] using this
  have hurl : urlSub (pyStrip text.data) = pyStrip text.data := by
    apply urlSub_id
    rw [seqContains_eq_false_iff] at hhttp ⊢
    exact fun hin => hhttp (hin.trans (pyStrip_contained _))
  by_cases hpe : (pyStrip text.data).isEmpty
  · have : pyStrip text.data = [] := by simpa [List.isEmpty_iff] using hpe
    simp [format_response, hnn, hsplit, processPara, hpe, this, List.intercalate]
  · simp [format_response, hnn, hsplit, processPara, hpe, hb1, hb2, hb3, hurl,
      List.intercalate]

/-- Witness for the amended claim C8 on a concrete plain input. -/
theorem claim_C8_amended_witness :
    format_response " hello world " "p" = "hello world" := by
  have h := claim_C8_amended " hello world " "p" (by decide) (by decide)
    (by decide) (by decide) (by decide)
  rw [h]
  decide

/-- Claim C9 counterexample: a session file that exists on disk and
stores a valid empty JSON array is NOT returned as a stored empty turn
sequence — the handler raises the not-found exception on the falsy
loaded value and its catch-all re-raises it as a 500. -/
theorem claim_C9_counterexample :
    lookupA fsEmptyArr.sessions (sessionFileName "abc")
      = some (FileData.json (Json.arr [])) ∧
    (get_session fsEmptyArr "abc" "t").1
      = .error (.httpError 500
          "Error retrieving session: 404: Session not found") := by
  exact ⟨rfl, rfl⟩

/-- Claim C9 as amended: the session retrieval endpoint signals an
error exactly when the loaded session value is falsy — which happens
when the backing record is absent, unparsable, or stores an empty
sequence — and that not-found signal is surfaced as a 500 response
because the handler's catch-all wraps the 404; a non-falsy stored
sequence is returned as-is. -/
theorem claim_C9_amended (fs : FS) (sessionId ts : String) :
    (pyFalsy (load_session fs sessionId ts).1 = true →
      (get_session fs sessionId ts).1
        = .error (.httpError 500
            "Error retrieving session: 404: Session not found")) ∧
    (pyFalsy (load_session fs sessionId ts).1 = false →
      (get_session fs sessionId ts).1
        = .ok (sessionId, (load_session fs sessionId ts).1)) := by
  refine ⟨fun h => ?_, fun h => ?_⟩
  · simp [get_session, get_sessionBody, h, pyErrStr]
    rfl
  · simp [get_session, get_sessionBody, h, pyErrStr]

/-- Witness for the amended claim C9 on a store holding one turn. -/
theorem claim_C9_amended_witness :
    pyFalsy (load_session fsOneTurn "abc" "t").1 = false ∧
    (get_session fsOneTurn "abc" "t").1
      = .ok ("abc", sessionToJson [⟨"user", "hi"⟩]) := by
  have h : pyFalsy (load_session fsOneTurn "abc" "t").1 = false := rfl
  exact ⟨h, ((claim_C9_amended fsOneTurn "abc" "t").2 h).trans rfl⟩

/-- Claim C10: the chat handler's outermost catch-all turns every body
exception — the raised `HTTPException` values included — into a 500
Unexpected-error response, so no chat request can observe a 422 or 429
status from this handler: every failing request ends with status
500. -/
theorem claim_C10 :
    (∀ e : PyErr, outerCatch (.error e)
      = .error (.httpError 500 ("Unexpected error: " ++ pyErrStr e))) ∧
    (∀ (fs : FS) (sid prompt ts : String), ∃ d,
      (chat_with_medical_assistant fs sid prompt ts).1
        = .error (.httpError 500 d)) := by
  refine ⟨fun e => rfl, ?_⟩
  intro fs sid prompt ts
  by_cases hs : sid = ""
  · exact ⟨"Unexpected error: " ++ pyErrStr (.httpError 422 "session_id is required"),
      by simp [chat_with_medical_assistant, chatBody, hs, outerCatch]⟩
  · exact ⟨"Unexpected error: " ++ pyErrStr (.nameError "BOS"),
      by simp [chat_with_medical_assistant, chatBody, hs, outerCatch]⟩

end App
